import Mathlib

/-!
Shallow embedding of the gym-app frontend client.

The definitions below translate, table for table and function for function,
the active-workout view-model in `src/hooks/useWorkout.ts`, the set-row
handling of `src/components/workout/SetInputCard.tsx`, and the countdown in
`src/components/workout/RestTimer.tsx`.  JS numbers are modelled as rationals,
ISO timestamp strings as natural numbers (their chronological order), row ids
as strings, and nullable fields as `Option`.  Each view-model operation is a
pure state transformer taking the backend response as an explicit argument and
additionally returning the list of backend requests it issued, so that both
the local-state effects and the store-side effects of an operation can be
stated and proved.
-/

namespace GymApp

/-- JS the function Math.round, on the rational model of JS numbers:
for finite inputs it equals the floor of x + 0.5 (also for negative x). -/
def mathRound (q : ℚ) : ℤ := Rat.floor (q + 1/2)

/-- JS truthiness of a nullable number: null and 0 are falsy. -/
def truthyQ : Option ℚ → Bool
  | none => false
  | some q => q != 0

/-- JS truthiness of a nullable integer-valued number field. -/
def truthyN : Option ℕ → Bool
  | none => false
  | some n => n != 0

/-- Database ENUM muscle_group (src/types/workout.ts). -/
inductive MuscleGroup where
  | chest | back | front_delt | side_delt | rear_delt
  | biceps | triceps | forearms | quadriceps | hamstrings
  | glutes | calves | core | traps | lats
deriving DecidableEq, Repr

/-- Database ENUM equipment_type (src/types/workout.ts). -/
inductive EquipmentType where
  | barbell | dumbbell | cable | machine | bodyweight
  | kettlebell | resistance_band | other
deriving DecidableEq, Repr

/-- Database ENUM workout_status (src/types/workout.ts). -/
inductive WorkoutStatus where
  | in_progress | completed | abandoned
deriving DecidableEq, Repr

/-- Exercise row from the exercises table (src/types/workout.ts). -/
structure Exercise where
  id : String
  name : String
  description : Option String
  primary_muscle_group : MuscleGroup
  secondary_muscle_groups : List MuscleGroup
  equipment : EquipmentType
  is_compound : Bool
  created_by : Option String
  created_at : ℕ
deriving DecidableEq, Repr

/-- Workout session row (src/types/workout.ts, interface Workout). -/
structure Workout where
  id : String
  user_id : String
  template_id : Option String
  name : String
  started_at : ℕ
  completed_at : Option ℕ
  status : WorkoutStatus
  notes : Option String
  created_at : ℕ
  updated_at : ℕ
deriving DecidableEq, Repr

/-- Logged set row (src/types/workout.ts, interface WorkoutSet). -/
structure WorkoutSet where
  id : String
  workout_exercise_id : String
  set_number : ℕ
  weight_kg : Option ℚ
  reps : Option ℕ
  rpe : Option ℚ
  is_warmup : Bool
  is_failure : Bool
  is_dropset : Bool
  target_reps : Option ℕ
  completed_at : ℕ
  created_at : ℕ
deriving DecidableEq, Repr

/-- Exercise row within an active workout (src/types/workout.ts, interface
WorkoutExercise).  The `exercise` and `sets` fields are the optional joined
data; the four target fields are the extra client-side properties that
`startWorkout` spreads onto the rows it stores (TS structural typing lets a
`WorkoutExercise[]` hold them), absent on rows fetched by `resumeWorkout`. -/
structure WorkoutExercise where
  id : String
  workout_id : String
  exercise_id : String
  order_index : ℕ
  template_exercise_id : Option String
  is_substitution : Bool
  notes : Option String
  created_at : ℕ
  exercise : Option Exercise := none
  sets : Option (List WorkoutSet) := none
  targetSets : Option ℕ := none
  targetReps : Option (Option ℕ) := none
  targetRpe : Option (Option ℚ) := none
  restSeconds : Option ℕ := none
deriving DecidableEq, Repr

/-- Exercise within a template, with the joined exercise row, as in
WorkoutTemplateWithExercises (src/types/workout.ts). -/
structure TemplateExercise where
  id : String
  template_id : String
  exercise_id : String
  order_index : ℕ
  target_sets : ℕ
  target_reps : Option ℕ
  target_rpe : Option ℚ
  rest_seconds : ℕ
  notes : Option String
  created_at : ℕ
  exercise : Exercise
deriving DecidableEq, Repr

/-- Template with its exercises (src/types/workout.ts,
WorkoutTemplateWithExercises). -/
structure WorkoutTemplateWithExercises where
  id : String
  name : String
  description : Option String
  created_by : Option String
  estimated_duration_minutes : Option ℕ
  created_at : ℕ
  updated_at : ℕ
  template_exercises : List TemplateExercise
deriving DecidableEq, Repr

/-- Previous set data used to pre-fill inputs (src/types/workout.ts). -/
structure PreviousSetData where
  exercise_id : String
  weight_kg : ℚ
  reps : ℕ
  set_number : ℕ
deriving DecidableEq, Repr

/-- Authenticated user, as read from the auth context by useWorkout. -/
structure User where
  id : String
deriving DecidableEq, Repr

/-- Local state of the useWorkout hook (src/hooks/useWorkout.ts,
interface UseWorkoutState). -/
structure UseWorkoutState where
  workout : Option Workout
  exercises : List WorkoutExercise
  loading : Bool
  error : Option String
deriving DecidableEq, Repr

/-- Value thrown by a failing backend call: either an Error carrying a
message, or some non-Error value. -/
inductive JsError where
  | jsErr (message : String)
  | nonError
deriving DecidableEq, Repr

/-- Message extraction used by every catch block:
error instanceof Error ? error.message : fallback. -/
def errMessage : JsError → String → String
  | .jsErr m, _ => m
  | .nonError, fallback => fallback

/-- Payload of the workouts insert issued by startWorkout. -/
structure InsertWorkoutPayload where
  user_id : String
  template_id : Option String
  name : String
  status : WorkoutStatus
deriving DecidableEq, Repr

/-- One row of the workout_exercises insert issued by startWorkout. -/
structure InsertWorkoutExercisePayload where
  workout_id : String
  exercise_id : String
  order_index : ℕ
  template_exercise_id : Option String
  is_substitution : Bool
deriving DecidableEq, Repr

/-- Argument of logSet: Omit NewWorkoutSet workout_exercise_id
(src/types/workout.ts, interface NewWorkoutSet).  The TS-optional fields
carry the backend column defaults here. -/
structure NewWorkoutSetData where
  set_number : ℕ
  weight_kg : Option ℚ
  reps : Option ℕ
  rpe : Option ℚ := none
  is_warmup : Bool := false
  is_failure : Bool := false
  is_dropset : Bool := false
  target_reps : Option ℕ := none
deriving DecidableEq, Repr

/-- Partial WorkoutSet, the updates argument of updateSet.  An outer `none`
means the field is absent from the patch. -/
structure WorkoutSetUpdates where
  set_number : Option ℕ := none
  weight_kg : Option (Option ℚ) := none
  reps : Option (Option ℕ) := none
  rpe : Option (Option ℚ) := none
  is_warmup : Option Bool := none
  is_failure : Option Bool := none
  is_dropset : Option Bool := none
  target_reps : Option (Option ℕ) := none
deriving DecidableEq, Repr

/-- Payload of the workouts update issued by completeWorkout and
abandonWorkout.  completeWorkout sends a notes field (possibly null),
abandonWorkout omits it; the outer `none` means the field is absent. -/
structure WorkoutUpdatePayload where
  status : WorkoutStatus
  completed_at : ℕ
  notes : Option (Option String) := none
deriving DecidableEq, Repr

/-- One backend request, as issued by the view-model operations. -/
inductive Request where
  | insertWorkout (payload : InsertWorkoutPayload)
  | insertWorkoutExercises (payload : List InsertWorkoutExercisePayload)
  | selectWorkout (workoutId : String)
  | selectWorkoutExercises (workoutId : String)
  | insertWorkoutSet (workoutExerciseId : String) (data : NewWorkoutSetData)
  | updateWorkoutSet (setId : String) (updates : WorkoutSetUpdates)
  | deleteWorkoutSet (setId : String)
  | updateWorkoutExercise (workoutExerciseId : String) (newExerciseId : String)
  | updateWorkout (workoutId : String) (updates : WorkoutUpdatePayload)
deriving DecidableEq, Repr

/-- The backend store: the three tables the active-workout flow writes. -/
structure Database where
  workouts : List Workout
  workout_exercises : List WorkoutExercise
  workout_sets : List WorkoutSet
deriving DecidableEq, Repr

/-- Application of a set patch to a stored row, the backend semantics of a
workout_sets update. -/
def applySetUpdates (s : WorkoutSet) (u : WorkoutSetUpdates) : WorkoutSet :=
  { s with
    set_number := u.set_number.getD s.set_number
    weight_kg := u.weight_kg.getD s.weight_kg
    reps := u.reps.getD s.reps
    rpe := u.rpe.getD s.rpe
    is_warmup := u.is_warmup.getD s.is_warmup
    is_failure := u.is_failure.getD s.is_failure
    is_dropset := u.is_dropset.getD s.is_dropset
    target_reps := u.target_reps.getD s.target_reps }

/-- Workout row created by the backend for an insert payload; the id and the
timestamps are backend-assigned. -/
def workoutFromPayload (p : InsertWorkoutPayload) (freshId : String) (now : ℕ) :
    Workout :=
  { id := freshId, user_id := p.user_id, template_id := p.template_id,
    name := p.name, started_at := now, completed_at := none,
    status := p.status, notes := none, created_at := now, updated_at := now }

/-- WorkoutExercise row created by the backend for an insert payload row. -/
def workoutExerciseFromPayload (p : InsertWorkoutExercisePayload)
    (freshId : String) (now : ℕ) : WorkoutExercise :=
  { id := freshId, workout_id := p.workout_id, exercise_id := p.exercise_id,
    order_index := p.order_index,
    template_exercise_id := p.template_exercise_id,
    is_substitution := p.is_substitution, notes := none, created_at := now }

/-- WorkoutSet row created by the backend for a logSet insert. -/
def workoutSetFromPayload (workoutExerciseId : String) (d : NewWorkoutSetData)
    (freshId : String) (now : ℕ) : WorkoutSet :=
  { id := freshId, workout_exercise_id := workoutExerciseId,
    set_number := d.set_number, weight_kg := d.weight_kg, reps := d.reps,
    rpe := d.rpe, is_warmup := d.is_warmup, is_failure := d.is_failure,
    is_dropset := d.is_dropset, target_reps := d.target_reps,
    completed_at := now, created_at := now }

/-- Effect of one request on the store.  Selects read and change nothing;
updates and deletes act on the rows matching the filter of the request;
inserted rows get backend-assigned ids drawn from `fresh` and the current
timestamp `now`. -/
def applyRequest (db : Database) (fresh : List String) (now : ℕ) :
    Request → Database
  | .insertWorkout p =>
      { db with workouts := db.workouts ++ [workoutFromPayload p (fresh.headD "") now] }
  | .insertWorkoutExercises ps =>
      { db with workout_exercises :=
          db.workout_exercises ++
            List.zipWith (fun p fid => workoutExerciseFromPayload p fid now) ps fresh }
  | .selectWorkout _ => db
  | .selectWorkoutExercises _ => db
  | .insertWorkoutSet weId d =>
      { db with workout_sets :=
          db.workout_sets ++ [workoutSetFromPayload weId d (fresh.headD "") now] }
  | .updateWorkoutSet setId u =>
      { db with workout_sets :=
          db.workout_sets.map fun s => if s.id = setId then applySetUpdates s u else s }
  | .deleteWorkoutSet setId =>
      { db with workout_sets := db.workout_sets.filter fun s => s.id ≠ setId }
  | .updateWorkoutExercise weId newExerciseId =>
      { db with workout_exercises :=
          db.workout_exercises.map fun we =>
            if we.id = weId then
              { we with exercise_id := newExerciseId, is_substitution := true }
            else we }
  | .updateWorkout workoutId u =>
      { db with workouts :=
          db.workouts.map fun w =>
            if w.id = workoutId then
              { w with status := u.status, completed_at := some u.completed_at,
                       notes := u.notes.getD w.notes, updated_at := now }
            else w }

/-- Result of startWorkout. -/
structure StartWorkoutResult where
  success : Bool
  error : Option String
  workoutId : Option String := none
deriving DecidableEq, Repr

/-- Result of the operations returning only success and error. -/
structure OpResult where
  success : Bool
  error : Option String
deriving DecidableEq, Repr

/-- Result of logSet. -/
structure LogSetResult where
  success : Bool
  error : Option String
  set : Option WorkoutSet := none
deriving DecidableEq, Repr

/-- Result of completeWorkout. -/
structure CompleteWorkoutResult where
  success : Bool
  error : Option String
  workout : Option Workout := none
deriving DecidableEq, Repr

/-- Operation startWorkout of useWorkout (src/hooks/useWorkout.ts).  The two
backend responses (the workouts insert and the workout_exercises insert) are
passed as arguments; the second is reached only when the first succeeds.
Returned alongside the result and the next state is the list of requests the
call issued. -/
def startWorkout (user : Option User) (st : UseWorkoutState)
    (template : WorkoutTemplateWithExercises)
    (respWorkout : Except JsError Workout)
    (respExercises : Except JsError (List WorkoutExercise)) :
    StartWorkoutResult × UseWorkoutState × List Request :=
  match user with
  | none => ({ success := false, error := some "Not authenticated" }, st, [])
  | some u =>
    let st1 := { st with loading := true, error := none }
    let workoutPayload : InsertWorkoutPayload :=
      { user_id := u.id, template_id := some template.id,
        name := template.name, status := .in_progress }
    match respWorkout with
    | .error e =>
        let message := errMessage e "Failed to start workout"
        ({ success := false, error := some message },
         { st1 with loading := false, error := some message },
         [.insertWorkout workoutPayload])
    | .ok workout =>
      let workoutExercises := template.template_exercises.map fun te =>
        ({ workout_id := workout.id, exercise_id := te.exercise_id,
           order_index := te.order_index, template_exercise_id := some te.id,
           is_substitution := false } : InsertWorkoutExercisePayload)
      let trace := [Request.insertWorkout workoutPayload,
                    Request.insertWorkoutExercises workoutExercises]
      match respExercises with
      | .error e =>
          let message := errMessage e "Failed to start workout"
          ({ success := false, error := some message },
           { st1 with loading := false, error := some message }, trace)
      | .ok exercises =>
        let exercisesWithTargets := exercises.map fun ex =>
          let templateEx := template.template_exercises.find? fun te =>
            te.exercise_id = ex.exercise_id
          { ex with
            targetSets := some ((templateEx.map (·.target_sets)).getD 3)
            targetReps := some ((templateEx.map (·.target_reps)).getD none)
            targetRpe := some ((templateEx.map (·.target_rpe)).getD none)
            restSeconds := some ((templateEx.map (·.rest_seconds)).getD 90)
            sets := some [] }
        ({ success := true, error := none, workoutId := some workout.id },
         { workout := some workout, exercises := exercisesWithTargets,
           loading := false, error := none }, trace)

/-- Operation resumeWorkout of useWorkout: re-fetches the workout row and its
exercises with joined sets.  The second select can return a null list, which
the code replaces with an empty one. -/
def resumeWorkout (st : UseWorkoutState) (workoutId : String)
    (respWorkout : Except JsError Workout)
    (respExercises : Except JsError (Option (List WorkoutExercise))) :
    OpResult × UseWorkoutState × List Request :=
  let st1 := { st with loading := true, error := none }
  match respWorkout with
  | .error e =>
      let message := errMessage e "Failed to resume workout"
      ({ success := false, error := some message },
       { st1 with loading := false, error := some message },
       [.selectWorkout workoutId])
  | .ok workout =>
    let trace := [Request.selectWorkout workoutId,
                  Request.selectWorkoutExercises workoutId]
    match respExercises with
    | .error e =>
        let message := errMessage e "Failed to resume workout"
        ({ success := false, error := some message },
         { st1 with loading := false, error := some message }, trace)
    | .ok exercises =>
        ({ success := true, error := none },
         { workout := some workout, exercises := exercises.getD [],
           loading := false, error := none }, trace)

/-- Operation logSet of useWorkout: guarded by an active workout; inserts one
workout_sets row and, on success, appends the created row to the sets list of
the matching exercise. -/
def logSet (st : UseWorkoutState) (workoutExerciseId : String)
    (setData : NewWorkoutSetData) (resp : Except JsError WorkoutSet) :
    LogSetResult × UseWorkoutState × List Request :=
  match st.workout with
  | none => ({ success := false, error := some "No active workout" }, st, [])
  | some _ =>
    match resp with
    | .error e =>
        ({ success := false, error := some (errMessage e "Failed to log set") },
         st, [.insertWorkoutSet workoutExerciseId setData])
    | .ok newSet =>
        ({ success := true, error := none, set := some newSet },
         { st with exercises := st.exercises.map fun ex =>
             if ex.id = workoutExerciseId then
               { ex with sets := some (ex.sets.getD [] ++ [newSet]) }
             else ex },
         [.insertWorkoutSet workoutExerciseId setData])

/-- Operation updateSet of useWorkout: patches one workout_sets row by id and,
on success, replaces the matching set in every exercise by the row the backend
returned; exercises without a sets list keep none. -/
def updateSet (st : UseWorkoutState) (setId : String)
    (updates : WorkoutSetUpdates) (resp : Except JsError WorkoutSet) :
    OpResult × UseWorkoutState × List Request :=
  match resp with
  | .error e =>
      ({ success := false, error := some (errMessage e "Failed to update set") },
       st, [.updateWorkoutSet setId updates])
  | .ok updatedSet =>
      ({ success := true, error := none },
       { st with exercises := st.exercises.map fun ex =>
           { ex with sets := ex.sets.map fun ss =>
               ss.map fun s => if s.id = setId then updatedSet else s } },
       [.updateWorkoutSet setId updates])

/-- Operation deleteSet of useWorkout: deletes one workout_sets row by id and,
on success, filters it out of the sets list of the matching exercise. -/
def deleteSet (st : UseWorkoutState) (setId workoutExerciseId : String)
    (resp : Except JsError Unit) :
    OpResult × UseWorkoutState × List Request :=
  match resp with
  | .error e =>
      ({ success := false, error := some (errMessage e "Failed to delete set") },
       st, [.deleteWorkoutSet setId])
  | .ok _ =>
      ({ success := true, error := none },
       { st with exercises := st.exercises.map fun ex =>
           if ex.id = workoutExerciseId then
             { ex with sets := ex.sets.map fun ss =>
                 ss.filter fun s => s.id ≠ setId }
           else ex },
       [.deleteWorkoutSet setId])

/-- Operation swapExercise of useWorkout: updates the workout_exercises row in
place (new exercise_id, is_substitution true) and, on success, replaces the
matching slot by the returned row with an empty sets list. -/
def swapExercise (st : UseWorkoutState) (workoutExerciseId newExerciseId : String)
    (resp : Except JsError WorkoutExercise) :
    OpResult × UseWorkoutState × List Request :=
  match resp with
  | .error e =>
      ({ success := false, error := some (errMessage e "Failed to swap exercise") },
       st, [.updateWorkoutExercise workoutExerciseId newExerciseId])
  | .ok data =>
      ({ success := true, error := none },
       { st with exercises := st.exercises.map fun ex =>
           if ex.id = workoutExerciseId then { data with sets := some [] } else ex },
       [.updateWorkoutExercise workoutExerciseId newExerciseId])

/-- Operation completeWorkout of useWorkout: guarded by an active workout;
sets status completed, completed_at and notes on the workouts row, then clears
the local state.  The parameter `now` is the current timestamp; the TS source
sends notes OR null, so an empty notes string becomes null. -/
def completeWorkout (st : UseWorkoutState) (notes : Option String) (now : ℕ)
    (resp : Except JsError Workout) :
    CompleteWorkoutResult × UseWorkoutState × List Request :=
  match st.workout with
  | none => ({ success := false, error := some "No active workout" }, st, [])
  | some w =>
    let payload : WorkoutUpdatePayload :=
      { status := .completed, completed_at := now,
        notes := some (match notes with
                       | some s => if s = "" then none else some s
                       | none => none) }
    match resp with
    | .error e =>
        ({ success := false,
           error := some (errMessage e "Failed to complete workout") },
         st, [.updateWorkout w.id payload])
    | .ok data =>
        ({ success := true, error := none, workout := some data },
         { workout := none, exercises := [], loading := false, error := none },
         [.updateWorkout w.id payload])

/-- Operation abandonWorkout of useWorkout: guarded by an active workout; sets
status abandoned and completed_at on the workouts row (no notes field in the
payload), then clears the local state. -/
def abandonWorkout (st : UseWorkoutState) (now : ℕ)
    (resp : Except JsError Unit) :
    OpResult × UseWorkoutState × List Request :=
  match st.workout with
  | none => ({ success := false, error := some "No active workout" }, st, [])
  | some w =>
    let payload : WorkoutUpdatePayload :=
      { status := .abandoned, completed_at := now }
    match resp with
    | .error e =>
        ({ success := false,
           error := some (errMessage e "Failed to abandon workout") },
         st, [.updateWorkout w.id payload])
    | .ok _ =>
        ({ success := true, error := none },
         { workout := none, exercises := [], loading := false, error := none },
         [.updateWorkout w.id payload])

/-- Stats returned by getWorkoutStats. -/
structure WorkoutStats where
  totalSets : ℕ
  totalVolume : ℤ
  exerciseCount : ℕ
  completedExercises : ℕ
deriving DecidableEq, Repr

/-- Operation getWorkoutStats of useWorkout: pure aggregation over the current
exercise list.  A missing sets list counts as zero; the volume term of a set
is weight times reps when the set is a working set and both fields are truthy,
else zero; the total volume is rounded as by Math.round. -/
def getWorkoutStats (st : UseWorkoutState) : WorkoutStats :=
  let totalSets := st.exercises.foldl
    (fun acc ex =>
      acc + ((ex.sets.map fun ss => (ss.filter fun s => !s.is_warmup).length).getD 0))
    0
  let totalVolume : ℚ := st.exercises.foldl
    (fun acc ex =>
      acc + ((ex.sets.map fun ss => ss.foldl
        (fun setAcc s =>
          setAcc + (if !s.is_warmup && truthyQ s.weight_kg && truthyN s.reps
                    then s.weight_kg.getD 0 * (s.reps.getD 0 : ℚ)
                    else 0))
        0).getD 0))
    0
  let exerciseCount := st.exercises.length
  let completedExercises := (st.exercises.filter fun ex =>
    ((ex.sets.map fun ss => (ss.filter fun s => !s.is_warmup).length).getD 0) > 0).length
  { totalSets := totalSets, totalVolume := mathRound totalVolume,
    exerciseCount := exerciseCount, completedExercises := completedExercises }

/-- Descending order on nullable timestamps with null first, the backend
default for a descending order clause. -/
def optDescBefore : Option ℕ → Option ℕ → Prop
  | none, _ => True
  | some _, none => False
  | some x, some y => y ≤ x

instance : DecidableRel optDescBefore
  | none, _ => inferInstanceAs (Decidable True)
  | some _, none => inferInstanceAs (Decidable False)
  | some x, some y => inferInstanceAs (Decidable (y ≤ x))

theorem optDescBefore_total (x y : Option ℕ) :
    optDescBefore x y ∨ optDescBefore y x := by
  match x, y with
  | none, _ => exact Or.inl trivial
  | some a, none => exact Or.inr trivial
  | some a, some b => exact (Nat.le_total b a).imp id id

theorem optDescBefore_trans {x y z : Option ℕ}
    (hxy : optDescBefore x y) (hyz : optDescBefore y z) : optDescBefore x z := by
  match x, y, z with
  | none, _, _ => exact trivial
  | some a, none, _ => exact hxy.elim
  | some a, some b, none => exact hyz.elim
  | some a, some b, some c => exact Nat.le_trans hyz hxy

/-- Ordering used for order completed_at descending in the getPreviousSets
workout query. -/
def completedDescBefore (a b : Workout) : Prop :=
  optDescBefore a.completed_at b.completed_at

instance : DecidableRel completedDescBefore := fun a b =>
  inferInstanceAs (Decidable (optDescBefore a.completed_at b.completed_at))

instance : IsTotal Workout completedDescBefore where
  total a b := optDescBefore_total a.completed_at b.completed_at

instance : IsTrans Workout completedDescBefore where
  trans _ _ _ hab hbc := optDescBefore_trans hab hbc

/-- Ordering used for order set_number ascending in the getPreviousSets
set query. -/
def setNumberLe (s t : WorkoutSet) : Prop := s.set_number ≤ t.set_number

instance : DecidableRel setNumberLe := fun s t =>
  inferInstanceAs (Decidable (s.set_number ≤ t.set_number))

instance : IsTotal WorkoutSet setNumberLe where
  total s t := Nat.le_total s.set_number t.set_number

instance : IsTrans WorkoutSet setNumberLe where
  trans _ _ _ := Nat.le_trans

/-- Workouts matched by the first getPreviousSets query: completed workouts
of the user joined (inner) with a workout_exercises row for the exercise. -/
def candidateWorkouts (db : Database) (u : User) (exerciseId : String) :
    List Workout :=
  db.workouts.filter fun w =>
    decide (w.user_id = u.id) && decide (w.status = .completed) &&
      db.workout_exercises.any fun we =>
        decide (we.workout_id = w.id) && decide (we.exercise_id = exerciseId)

/-- Operation getPreviousSets of useWorkout, as a pure function of the store:
takes the head of the candidate workouts ordered by completed_at descending
(the limit 1 single query), then the first joined workout_exercises row for
the exercise, then its non-warmup sets ordered by set_number, keeping those
with truthy weight and reps.  Unauthenticated users, a missing previous
workout and query failures all yield the empty list. -/
def getPreviousSets (db : Database) (user : Option User) (exerciseId : String) :
    List PreviousSetData :=
  match user with
  | none => []
  | some u =>
    match (List.insertionSort completedDescBefore
        (candidateWorkouts db u exerciseId)).head? with
    | none => []
    | some recentWorkout =>
      let joined := db.workout_exercises.filter fun we =>
        decide (we.workout_id = recentWorkout.id) &&
          decide (we.exercise_id = exerciseId)
      match joined.find? fun we => decide (we.exercise_id = exerciseId) with
      | none => []
      | some workoutExercise =>
        let sets := db.workout_sets.filter fun s =>
          decide (s.workout_exercise_id = workoutExercise.id) &&
            decide (s.is_warmup = false)
        ((List.insertionSort setNumberLe sets).filter fun s =>
            truthyQ s.weight_kg && truthyN s.reps).map fun s =>
          { exercise_id := exerciseId, set_number := s.set_number,
            weight_kg := s.weight_kg.getD 0, reps := s.reps.getD 0 }

/-- One row of the local sets state of the SetInputCard component
(src/components/workout/SetInputCard.tsx, interface SetRowData). -/
structure SetRowData where
  setNumber : ℕ
  weight : String
  reps : String
  isWarmup : Bool
  isCompleted : Bool
  setId : Option String := none
  previousWeight : Option ℚ := none
  previousReps : Option ℕ := none
deriving DecidableEq, Repr

/-- JS Array.prototype.filter with the element index: keeps the elements
whose index differs from the given one. -/
def filterIndexNe (index : ℕ) : ℕ → List SetRowData → List SetRowData
  | _, [] => []
  | i, a :: l =>
      if i = index then filterIndexNe index (i + 1) l
      else a :: filterIndexNe index (i + 1) l

/-- JS Array.prototype.map with the element index, from a start index. -/
def mapWithIndex (f : ℕ → SetRowData → SetRowData) : ℕ → List SetRowData → List SetRowData
  | _, [] => []
  | i, a :: l => f i a :: mapWithIndex f (i + 1) l

/-- Local-state part of handleDeleteSet in SetInputCard: removes the row at
the index and renumbers the remaining rows with setNumber i + 1. -/
def handleDeleteSetLocal (sets : List SetRowData) (index : ℕ) : List SetRowData :=
  let newSets := filterIndexNe index 0 sets
  mapWithIndex (fun i s => { s with setNumber := i + 1 }) 0 newSets

/-- State of the RestTimer component (src/components/workout/RestTimer.tsx):
the remaining seconds, the paused flag and the visible flag of the modal (the
parent closes it by setting visible false when onClose fires). -/
structure TimerState where
  remainingSeconds : ℤ
  isPaused : Bool
  visible : Bool
deriving DecidableEq, Repr

/-- Timer state when the modal opens with a duration: remaining reset to the
duration, not paused. -/
def initTimer (duration : ℤ) : TimerState :=
  { remainingSeconds := duration, isPaused := false, visible := true }

/-- One-second interval callback.  The interval only runs while the modal is
visible and not paused.  At one second or less the callback vibrates, calls
onClose (the parent hides the modal) and sets the remaining seconds to zero;
else it decrements them.  The boolean reports the completion signal. -/
def timerTick (s : TimerState) : TimerState × Bool :=
  if !s.visible || s.isPaused then (s, false)
  else if s.remainingSeconds ≤ 1 then
    ({ s with remainingSeconds := 0, visible := false }, true)
  else ({ s with remainingSeconds := s.remainingSeconds - 1 }, false)

/-- The adjustTime handler of the -15s and +15s buttons: clamps at zero. -/
def adjustTime (s : TimerState) (delta : ℤ) : TimerState :=
  { s with remainingSeconds := max 0 (s.remainingSeconds + delta) }

/-- The pause button handler. -/
def togglePause (s : TimerState) : TimerState :=
  { s with isPaused := !s.isPaused }

/-- Events of the rest timer. -/
inductive TimerEvent where
  | tick
  | pauseResume
  | adjust (delta : ℤ)
deriving DecidableEq, Repr

/-- One event applied to the timer state; the boolean is the completion
signal of a tick. -/
def timerStep (s : TimerState) : TimerEvent → TimerState × Bool
  | .tick => timerTick s
  | .pauseResume => (togglePause s, false)
  | .adjust d => (adjustTime s d, false)

/-- Timer state after a sequence of events from a fresh open at the given
duration. -/
def runTimer (duration : ℤ) (events : List TimerEvent) : TimerState :=
  events.foldl (fun s e => (timerStep s e).1) (initTimer duration)

/-- Sets list held locally for the exercise slot with the given id: empty
when the slot is absent or its sets list is missing, as every reader of the
state treats a missing list as empty. -/
def localSets (st : UseWorkoutState) (workoutExerciseId : String) :
    List WorkoutSet :=
  match st.exercises.find? fun ex => decide (ex.id = workoutExerciseId) with
  | none => []
  | some ex => ex.sets.getD []

/-! Concrete fixtures used by witnesses and examples. -/

/-- Fixture: a state with no active workout. -/
def emptyState : UseWorkoutState :=
  { workout := none, exercises := [], loading := false, error := none }

/-- Fixture: a catalog exercise. -/
def exA : Exercise :=
  { id := "eA", name := "Bench Press", description := none,
    primary_muscle_group := .chest, secondary_muscle_groups := [.triceps],
    equipment := .barbell, is_compound := true, created_by := none,
    created_at := 0 }

/-- Fixture: an in-progress workout row. -/
def sampleWorkout : Workout :=
  { id := "w1", user_id := "u1", template_id := none, name := "Push Day",
    started_at := 0, completed_at := none, status := .in_progress,
    notes := none, created_at := 0, updated_at := 0 }

/-- Fixture: a workout exercise slot of sampleWorkout. -/
def sampleWE : WorkoutExercise :=
  { id := "we1", workout_id := "w1", exercise_id := "eA", order_index := 0,
    template_exercise_id := none, is_substitution := false, notes := none,
    created_at := 0, exercise := some exA, sets := some [] }

/-- Fixture: a logged set row of sampleWE. -/
def sampleSet : WorkoutSet :=
  { id := "s1", workout_exercise_id := "we1", set_number := 1,
    weight_kg := some 100, reps := some 5, rpe := none, is_warmup := false,
    is_failure := false, is_dropset := false, target_reps := none,
    completed_at := 0, created_at := 0 }

/-- Fixture: the data argument of a logSet call. -/
def sampleSetData : NewWorkoutSetData :=
  { set_number := 1, weight_kg := some 100, reps := some 5 }

/-- Fixture: a state holding sampleWorkout with the single slot sampleWE. -/
def activeState : UseWorkoutState :=
  { workout := some sampleWorkout, exercises := [sampleWE],
    loading := false, error := none }

/-- C10: updateSet, deleteSet and swapExercise carry no active-session
precondition: with no active workout each of them still issues its backend
request and returns success and a null error on a successful response, while
logSet, completeWorkout and abandonWorkout return the No-active-workout
failure, leave the state untouched and issue no request. -/
theorem set_mutations_have_no_active_workout_guard (st : UseWorkoutState)
    (h : st.workout = none) (sid weId newExId : String)
    (upd : WorkoutSetUpdates) (d : NewWorkoutSetData) (notes : Option String)
    (now : ℕ) (s : WorkoutSet) (we : WorkoutExercise)
    (rs : Except JsError WorkoutSet) (ru : Except JsError Unit)
    (rw : Except JsError WorkoutExercise) (rc : Except JsError Workout)
    (ra : Except JsError Unit) (rl : Except JsError WorkoutSet) :
    (updateSet st sid upd rs).2.2 = [Request.updateWorkoutSet sid upd]
    ∧ (updateSet st sid upd (.ok s)).1 = { success := true, error := none }
    ∧ (deleteSet st sid weId ru).2.2 = [Request.deleteWorkoutSet sid]
    ∧ (deleteSet st sid weId (.ok ())).1 = { success := true, error := none }
    ∧ (swapExercise st weId newExId rw).2.2
        = [Request.updateWorkoutExercise weId newExId]
    ∧ (swapExercise st weId newExId (.ok we)).1
        = { success := true, error := none }
    ∧ logSet st weId d rl
        = ({ success := false, error := some "No active workout" }, st, [])
    ∧ completeWorkout st notes now rc
        = ({ success := false, error := some "No active workout" }, st, [])
    ∧ abandonWorkout st now ra
        = ({ success := false, error := some "No active workout" }, st, []) := by
  refine ⟨?_, rfl, ?_, rfl, ?_, rfl, ?_, ?_, ?_⟩
  · cases rs <;> rfl
  · cases ru <;> rfl
  · cases rw <;> rfl
  · simp [logSet, h]
  · simp [completeWorkout, h]
  · simp [abandonWorkout, h]

/-- Witness for the C10 theorem at a concrete empty state. -/
theorem set_mutations_have_no_active_workout_guard_witness :
    (updateSet emptyState "s1" {} (.ok sampleSet)).1
        = { success := true, error := none }
    ∧ logSet emptyState "we1" sampleSetData (.ok sampleSet)
        = ({ success := false, error := some "No active workout" },
           emptyState, []) :=
  ⟨(set_mutations_have_no_active_workout_guard emptyState rfl "s1" "we1" "eB"
      {} sampleSetData none 0 sampleSet sampleWE (.ok sampleSet) (.ok ())
      (.ok sampleWE) (.ok sampleWorkout) (.ok ()) (.ok sampleSet)).2.1,
   (set_mutations_have_no_active_workout_guard emptyState rfl "s1" "we1" "eB"
      {} sampleSetData none 0 sampleSet sampleWE (.ok sampleSet) (.ok ())
      (.ok sampleWE) (.ok sampleWorkout) (.ok ()) (.ok sampleSet)).2.2.2.2.2.2.1⟩

/-- C6: with an active workout, a successful completeWorkout returns success,
clears the local state and issues exactly one workouts update whose payload
sets status completed and the completed_at timestamp, the update mapping the
stored row to one with status completed and completed_at set; abandonWorkout
does the same with status abandoned; with no active workout both return the
No-active-workout failure and issue no request. -/
theorem completeWorkout_abandonWorkout_transitions
    (st : UseWorkoutState) (w : Workout) (h : st.workout = some w)
    (notes : Option String) (now : ℕ) (data : Workout)
    (db : Database) (fresh : List String)
    (st2 : UseWorkoutState) (h2 : st2.workout = none)
    (rc : Except JsError Workout) (ra : Except JsError Unit) :
    ((completeWorkout st notes now (.ok data)).1
        = { success := true, error := none, workout := some data }
      ∧ (completeWorkout st notes now (.ok data)).2.1
        = { workout := none, exercises := [], loading := false, error := none }
      ∧ ∃ p : WorkoutUpdatePayload, p.status = .completed ∧ p.completed_at = now
          ∧ (completeWorkout st notes now (.ok data)).2.2
              = [Request.updateWorkout w.id p]
          ∧ ∀ x ∈ db.workouts, x.id = w.id →
              { x with status := WorkoutStatus.completed,
                       completed_at := some now,
                       notes := p.notes.getD x.notes, updated_at := now }
                ∈ (applyRequest db fresh now (Request.updateWorkout w.id p)).workouts)
    ∧ ((abandonWorkout st now (.ok ())).1 = { success := true, error := none }
      ∧ (abandonWorkout st now (.ok ())).2.1
        = { workout := none, exercises := [], loading := false, error := none }
      ∧ ∃ p : WorkoutUpdatePayload, p.status = .abandoned ∧ p.completed_at = now
          ∧ (abandonWorkout st now (.ok ())).2.2
              = [Request.updateWorkout w.id p]
          ∧ ∀ x ∈ db.workouts, x.id = w.id →
              { x with status := WorkoutStatus.abandoned,
                       completed_at := some now,
                       notes := p.notes.getD x.notes, updated_at := now }
                ∈ (applyRequest db fresh now (Request.updateWorkout w.id p)).workouts)
    ∧ completeWorkout st2 notes now rc
        = ({ success := false, error := some "No active workout" }, st2, [])
    ∧ abandonWorkout st2 now ra
        = ({ success := false, error := some "No active workout" }, st2, []) := by
  refine ⟨⟨?_, ?_, ?_⟩, ⟨?_, ?_, ?_⟩, ?_, ?_⟩
  · simp [completeWorkout, h]
  · simp [completeWorkout, h]
  · refine ⟨{ status := .completed, completed_at := now,
              notes := some (match notes with
                             | some s => if s = "" then none else some s
                             | none => none) },
            rfl, rfl, by simp [completeWorkout, h], ?_⟩
    intro x hx hxid
    simp only [applyRequest]
    exact List.mem_map.mpr ⟨x, hx, by simp [hxid]⟩
  · simp [abandonWorkout, h]
  · simp [abandonWorkout, h]
  · refine ⟨{ status := .abandoned, completed_at := now },
            rfl, rfl, by simp [abandonWorkout, h], ?_⟩
    intro x hx hxid
    simp only [applyRequest]
    exact List.mem_map.mpr ⟨x, hx, by simp [hxid]⟩
  · simp [completeWorkout, h2]
  · simp [abandonWorkout, h2]

/-- Witness for the C6 theorem at a concrete active state. -/
theorem completeWorkout_abandonWorkout_transitions_witness :
    (completeWorkout activeState none 7
        (.ok { sampleWorkout with status := .completed, completed_at := some 7 })).2.1
      = { workout := none, exercises := [], loading := false, error := none } :=
  (completeWorkout_abandonWorkout_transitions activeState sampleWorkout rfl
      none 7 { sampleWorkout with status := .completed, completed_at := some 7 }
      { workouts := [sampleWorkout], workout_exercises := [sampleWE],
        workout_sets := [] } [] emptyState rfl
      (.ok sampleWorkout) (.ok ())).1.2.1

/-- C5: a successful swapExercise replaces the targeted slot in place by the
returned row with an empty local sets list and leaves every other slot
untouched: the list keeps its length and positions, and the slot row (for a
backend returning the updated row) has the new exercise reference, the
substitution flag and an empty sets list while keeping the order index of the
returned row; the call issues exactly one workout_exercises update, and that
request leaves the workout_sets table unchanged and neither adds nor removes
workout_exercises rows, only rewriting the targeted row in place. -/
theorem swapExercise_replaces_slot_in_place
    (st : UseWorkoutState) (weId newExId : String) (data : WorkoutExercise)
    (db : Database) (fresh : List String) (now : ℕ) :
    (swapExercise st weId newExId (.ok data)).1
        = { success := true, error := none }
    ∧ (swapExercise st weId newExId (.ok data)).2.1.workout = st.workout
    ∧ (swapExercise st weId newExId (.ok data)).2.1.exercises.length
        = st.exercises.length
    ∧ (∀ i : ℕ, ∀ ex : WorkoutExercise, st.exercises[i]? = some ex →
        (ex.id = weId →
          (swapExercise st weId newExId (.ok data)).2.1.exercises[i]?
            = some { data with sets := some [] })
        ∧ (ex.id ≠ weId →
          (swapExercise st weId newExId (.ok data)).2.1.exercises[i]? = some ex))
    ∧ (data.is_substitution = true → data.exercise_id = newExId →
        ∀ i : ℕ, ∀ ex : WorkoutExercise, st.exercises[i]? = some ex →
          ex.id = weId →
          ∃ ex2 : WorkoutExercise,
            (swapExercise st weId newExId (.ok data)).2.1.exercises[i]?
              = some ex2
            ∧ ex2.is_substitution = true ∧ ex2.exercise_id = newExId
            ∧ ex2.sets = some [] ∧ ex2.order_index = data.order_index)
    ∧ (swapExercise st weId newExId (.ok data)).2.2
        = [Request.updateWorkoutExercise weId newExId]
    ∧ (applyRequest db fresh now (Request.updateWorkoutExercise weId newExId)).workout_sets
        = db.workout_sets
    ∧ (applyRequest db fresh now (Request.updateWorkoutExercise weId newExId)).workout_exercises.length
        = db.workout_exercises.length
    ∧ (∀ we ∈ db.workout_exercises, we.id = weId →
        { we with exercise_id := newExId, is_substitution := true }
          ∈ (applyRequest db fresh now (Request.updateWorkoutExercise weId newExId)).workout_exercises)
    ∧ (∀ we ∈ db.workout_exercises, we.id ≠ weId →
        we ∈ (applyRequest db fresh now (Request.updateWorkoutExercise weId newExId)).workout_exercises) := by
  have hmap : ∀ i : ℕ, ∀ ex : WorkoutExercise, st.exercises[i]? = some ex →
      (swapExercise st weId newExId (.ok data)).2.1.exercises[i]?
        = some (if ex.id = weId then { data with sets := some [] } else ex) := by
    intro i ex hex
    simp only [swapExercise, List.getElem?_map, hex]
    rfl
  refine ⟨rfl, rfl, by simp [swapExercise], ?_, ?_, rfl, rfl,
          by simp [applyRequest], ?_, ?_⟩
  · intro i ex hex
    refine ⟨fun hid => ?_, fun hid => ?_⟩
    · rw [hmap i ex hex, if_pos hid]
    · rw [hmap i ex hex, if_neg hid]
  · intro hsub href i ex hex hid
    exact ⟨{ data with sets := some [] }, by rw [hmap i ex hex, if_pos hid],
           hsub, href, rfl, rfl⟩
  · intro we hwe hid
    simp only [applyRequest]
    exact List.mem_map.mpr ⟨we, hwe, by simp [hid]⟩
  · intro we hwe hid
    simp only [applyRequest]
    exact List.mem_map.mpr ⟨we, hwe, by simp [hid]⟩

/-- Witness for the C5 theorem: swapping the only slot of the active fixture
state for exercise eB empties the visible sets and keeps the stored set rows
of the old exercise in the backend. -/
theorem swapExercise_replaces_slot_in_place_witness :
    (swapExercise activeState "we1" "eB"
        (.ok { sampleWE with exercise_id := "eB", is_substitution := true })).2.1.exercises[0]?
      = some { sampleWE with exercise_id := "eB", is_substitution := true, sets := some [] }
    ∧ (applyRequest
        { workouts := [sampleWorkout], workout_exercises := [sampleWE],
          workout_sets := [sampleSet] } [] 9
        (Request.updateWorkoutExercise "we1" "eB")).workout_sets
      = [sampleSet] :=
  ⟨((swapExercise_replaces_slot_in_place activeState "we1" "eB"
        { sampleWE with exercise_id := "eB", is_substitution := true }
        { workouts := [sampleWorkout], workout_exercises := [sampleWE],
          workout_sets := [sampleSet] } [] 9).2.2.2.1 0 sampleWE rfl).1 rfl,
   (swapExercise_replaces_slot_in_place activeState "we1" "eB"
        { sampleWE with exercise_id := "eB", is_substitution := true }
        { workouts := [sampleWorkout], workout_exercises := [sampleWE],
          workout_sets := [sampleSet] } [] 9).2.2.2.2.2.2.1⟩

/-- C4: every backend failure of a view-model operation is caught and
reported as a success-false result carrying the stringified message; the held
workout and exercise lists are unchanged by the failed call, and the issued
request trace of the failing attempt contains no repeated attempt (one
request per failing step, two for a startWorkout or resumeWorkout whose
second step fails). -/
theorem backend_failures_are_caught_and_leave_state
    (st : UseWorkoutState) (u : User) (t : WorkoutTemplateWithExercises)
    (e : JsError) (wid sid weId newExId : String) (upd : WorkoutSetUpdates)
    (d : NewWorkoutSetData) (notes : Option String) (now : ℕ) (w : Workout)
    (re : Except JsError (List WorkoutExercise))
    (re2 : Except JsError (Option (List WorkoutExercise))) :
    ((startWorkout (some u) st t (.error e) re).1
        = { success := false,
            error := some (errMessage e "Failed to start workout") }
      ∧ (startWorkout (some u) st t (.error e) re).2.1.workout = st.workout
      ∧ (startWorkout (some u) st t (.error e) re).2.1.exercises = st.exercises
      ∧ (startWorkout (some u) st t (.error e) re).2.2.length = 1)
    ∧ ((startWorkout (some u) st t (.ok w) (.error e)).1
        = { success := false,
            error := some (errMessage e "Failed to start workout") }
      ∧ (startWorkout (some u) st t (.ok w) (.error e)).2.1.workout = st.workout
      ∧ (startWorkout (some u) st t (.ok w) (.error e)).2.1.exercises = st.exercises
      ∧ (startWorkout (some u) st t (.ok w) (.error e)).2.2.length = 2)
    ∧ ((resumeWorkout st wid (.error e) re2).1
        = { success := false,
            error := some (errMessage e "Failed to resume workout") }
      ∧ (resumeWorkout st wid (.error e) re2).2.1.workout = st.workout
      ∧ (resumeWorkout st wid (.error e) re2).2.1.exercises = st.exercises
      ∧ (resumeWorkout st wid (.error e) re2).2.2.length = 1)
    ∧ ((resumeWorkout st wid (.ok w) (.error e)).1
        = { success := false,
            error := some (errMessage e "Failed to resume workout") }
      ∧ (resumeWorkout st wid (.ok w) (.error e)).2.1.workout = st.workout
      ∧ (resumeWorkout st wid (.ok w) (.error e)).2.1.exercises = st.exercises
      ∧ (resumeWorkout st wid (.ok w) (.error e)).2.2.length = 2)
    ∧ (st.workout = some w →
        logSet st weId d (.error e)
          = ({ success := false,
               error := some (errMessage e "Failed to log set") }, st,
             [Request.insertWorkoutSet weId d]))
    ∧ updateSet st sid upd (.error e)
        = ({ success := false,
             error := some (errMessage e "Failed to update set") }, st,
           [Request.updateWorkoutSet sid upd])
    ∧ deleteSet st sid weId (.error e)
        = ({ success := false,
             error := some (errMessage e "Failed to delete set") }, st,
           [Request.deleteWorkoutSet sid])
    ∧ swapExercise st weId newExId (.error e)
        = ({ success := false,
             error := some (errMessage e "Failed to swap exercise") }, st,
           [Request.updateWorkoutExercise weId newExId])
    ∧ (st.workout = some w →
        (completeWorkout st notes now (.error e)).1
            = { success := false,
                error := some (errMessage e "Failed to complete workout") }
          ∧ (completeWorkout st notes now (.error e)).2.1 = st
          ∧ (completeWorkout st notes now (.error e)).2.2.length = 1)
    ∧ (st.workout = some w →
        (abandonWorkout st now (.error e)).1
            = { success := false,
                error := some (errMessage e "Failed to abandon workout") }
          ∧ (abandonWorkout st now (.error e)).2.1 = st
          ∧ (abandonWorkout st now (.error e)).2.2.length = 1) := by
  refine ⟨⟨rfl, rfl, rfl, rfl⟩, ⟨rfl, rfl, rfl, rfl⟩, ⟨rfl, rfl, rfl, rfl⟩,
          ⟨rfl, rfl, rfl, rfl⟩, ?_, rfl, rfl, rfl, ?_, ?_⟩
  · intro h; simp [logSet, h]
  · intro h; simp [completeWorkout, h]
  · intro h; simp [abandonWorkout, h]

/-- Witness for the C4 theorem at the concrete active state and a concrete
backend error. -/
theorem backend_failures_are_caught_and_leave_state_witness :
    updateSet activeState "s1" {} (.error (.jsErr "network down"))
      = ({ success := false, error := some "network down" }, activeState,
         [Request.updateWorkoutSet "s1" {}])
    ∧ (logSet activeState "we1" sampleSetData (.error .nonError)).1
      = { success := false, error := some "Failed to log set" } :=
  ⟨(backend_failures_are_caught_and_leave_state activeState { id := "u1" }
      { id := "t1", name := "Push Day", description := none,
        created_by := none, estimated_duration_minutes := none,
        created_at := 0, updated_at := 0, template_exercises := [] }
      (.jsErr "network down") "w1" "s1" "we1" "eB" {} sampleSetData none 0
      sampleWorkout (.ok []) (.ok none)).2.2.2.2.2.1,
   congrArg Prod.fst
     ((backend_failures_are_caught_and_leave_state activeState { id := "u1" }
      { id := "t1", name := "Push Day", description := none,
        created_by := none, estimated_duration_minutes := none,
        created_at := 0, updated_at := 0, template_exercises := [] }
      .nonError "w1" "s1" "we1" "eB" {} sampleSetData none 0
      sampleWorkout (.ok []) (.ok none)).2.2.2.2.1 rfl)⟩

/-- State after a sequence of logSet calls, all on the same exercise slot,
each call paired with its backend response. -/
def runLogSets (st : UseWorkoutState) (weId : String)
    (calls : List (NewWorkoutSetData × Except JsError WorkoutSet)) :
    UseWorkoutState :=
  calls.foldl (fun s c => (logSet s weId c.1 c.2).2.1) st

/-- Number of successful inserts in a sequence of logSet calls. -/
def countOk (calls : List (NewWorkoutSetData × Except JsError WorkoutSet)) : ℕ :=
  calls.countP fun c => match c.2 with | .ok _ => true | .error _ => false

theorem logSet_workout_eq (st : UseWorkoutState) (weId : String)
    (d : NewWorkoutSetData) (r : Except JsError WorkoutSet) :
    (logSet st weId d r).2.1.workout = st.workout := by
  cases h : st.workout <;> cases r <;> simp [logSet, h]

theorem find?_map_id_preserving (l : List WorkoutExercise) (weId : String)
    (f : WorkoutExercise → WorkoutExercise)
    (hf : ∀ ex, (f ex).id = ex.id) :
    (l.map f).find? (fun ex => decide (ex.id = weId))
      = (l.find? fun ex => decide (ex.id = weId)).map f := by
  rw [List.find?_map]
  have hp : ((fun ex => decide (ex.id = weId)) ∘ f)
      = fun ex => decide (ex.id = weId) := by
    funext ex
    simp [Function.comp, hf]
  rw [hp]

theorem localSets_logSet_ok (st : UseWorkoutState) (w : Workout)
    (h : st.workout = some w) (weId : String) (d : NewWorkoutSetData)
    (s : WorkoutSet)
    (hex : (st.exercises.find? fun ex => decide (ex.id = weId)).isSome) :
    localSets (logSet st weId d (.ok s)).2.1 weId
      = localSets st weId ++ [s] := by
  obtain ⟨ex0, hex0⟩ := Option.isSome_iff_exists.mp hex
  have hid : ex0.id = weId := by
    have := List.find?_some hex0
    simpa using this
  unfold localSets
  simp only [logSet, h]
  rw [find?_map_id_preserving _ _ _
        (fun ex => by by_cases hcase : ex.id = weId <;> simp [hcase]),
      hex0]
  simp [hid]

theorem find?_isSome_logSet_ok (st : UseWorkoutState) (w : Workout)
    (h : st.workout = some w) (weId : String) (d : NewWorkoutSetData)
    (s : WorkoutSet)
    (hex : (st.exercises.find? fun ex => decide (ex.id = weId)).isSome) :
    ((logSet st weId d (.ok s)).2.1.exercises.find? fun ex =>
        decide (ex.id = weId)).isSome := by
  obtain ⟨ex0, hex0⟩ := Option.isSome_iff_exists.mp hex
  simp only [logSet, h]
  rw [find?_map_id_preserving _ _ _
        (fun ex => by by_cases hcase : ex.id = weId <;> simp [hcase]),
      hex0]
  rfl

theorem localSets_length_runLogSets (weId : String)
    (calls : List (NewWorkoutSetData × Except JsError WorkoutSet)) :
    ∀ st : UseWorkoutState, ∀ w : Workout, st.workout = some w →
      (st.exercises.find? fun ex => decide (ex.id = weId)).isSome →
      (localSets (runLogSets st weId calls) weId).length
        = (localSets st weId).length + countOk calls := by
  induction calls with
  | nil => intro st w _ _; simp [runLogSets, countOk]
  | cons c rest ih =>
    intro st w h hex
    obtain ⟨d, r⟩ := c
    cases r with
    | error e =>
        have hstep : (logSet st weId d (.error e)).2.1 = st := by
          simp [logSet, h]
        calc (localSets (runLogSets st weId ((d, Except.error e) :: rest)) weId).length
            = (localSets (runLogSets (logSet st weId d (.error e)).2.1 weId rest) weId).length := rfl
          _ = (localSets (runLogSets st weId rest) weId).length := by rw [hstep]
          _ = (localSets st weId).length + countOk rest := ih st w h hex
          _ = (localSets st weId).length + countOk ((d, Except.error e) :: rest) := by
              simp [countOk, List.countP_cons]
    | ok s =>
        have h1 : (logSet st weId d (.ok s)).2.1.workout = some w := by
          rw [logSet_workout_eq, h]
        have hex1 := find?_isSome_logSet_ok st w h weId d s hex
        have hlen := localSets_logSet_ok st w h weId d s hex
        calc (localSets (runLogSets st weId ((d, Except.ok s) :: rest)) weId).length
            = (localSets (runLogSets (logSet st weId d (.ok s)).2.1 weId rest) weId).length := rfl
          _ = (localSets (logSet st weId d (.ok s)).2.1 weId).length + countOk rest :=
              ih _ w h1 hex1
          _ = (localSets st weId).length + 1 + countOk rest := by
              rw [hlen]; simp
          _ = (localSets st weId).length + countOk ((d, Except.ok s) :: rest) := by
              simp [countOk, List.countP_cons]; omega

/-- C1: with an active workout and a slot of the session, the local set list
of that slot grows by exactly the appended created row on every successful
logSet and is untouched by every failed call, so its length after any call
sequence is its initial length plus the number of successful inserts; two
identical successful calls append two rows (no de-duplication); with no
active workout logSet returns the No-active-workout failure, leaves the
state untouched and issues no request. -/
theorem logSet_grows_list_per_successful_insert
    (st : UseWorkoutState) (w : Workout) (h : st.workout = some w)
    (weId : String)
    (hex : (st.exercises.find? fun ex => decide (ex.id = weId)).isSome)
    (calls : List (NewWorkoutSetData × Except JsError WorkoutSet))
    (d : NewWorkoutSetData) (e : JsError) (s : WorkoutSet)
    (st0 : UseWorkoutState) (h0 : st0.workout = none)
    (r : Except JsError WorkoutSet) :
    (localSets (runLogSets st weId calls) weId).length
        = (localSets st weId).length + countOk calls
    ∧ localSets (logSet st weId d (.ok s)).2.1 weId = localSets st weId ++ [s]
    ∧ (logSet st weId d (.error e)).2.1 = st
    ∧ localSets (runLogSets st weId [(d, .ok s), (d, .ok s)]) weId
        = localSets st weId ++ [s, s]
    ∧ logSet st0 weId d r
        = ({ success := false, error := some "No active workout" }, st0, []) := by
  refine ⟨localSets_length_runLogSets weId calls st w h hex,
          localSets_logSet_ok st w h weId d s hex, by simp [logSet, h], ?_,
          by simp [logSet, h0]⟩
  have h1 : (logSet st weId d (.ok s)).2.1.workout = some w := by
    rw [logSet_workout_eq, h]
  have hex1 := find?_isSome_logSet_ok st w h weId d s hex
  have step2 := localSets_logSet_ok _ w h1 weId d s hex1
  have step1 := localSets_logSet_ok st w h weId d s hex
  calc localSets (runLogSets st weId [(d, .ok s), (d, .ok s)]) weId
      = localSets (logSet (logSet st weId d (.ok s)).2.1 weId d (.ok s)).2.1 weId := rfl
    _ = localSets (logSet st weId d (.ok s)).2.1 weId ++ [s] := step2
    _ = (localSets st weId ++ [s]) ++ [s] := by rw [step1]
    _ = localSets st weId ++ [s, s] := by simp

/-- Witness for the C1 theorem: one successful and one failed call on the
active fixture state leave exactly one appended set. -/
theorem logSet_grows_list_per_successful_insert_witness :
    (localSets (runLogSets activeState "we1"
        [(sampleSetData, Except.ok sampleSet),
         (sampleSetData, Except.error JsError.nonError)]) "we1").length
      = (localSets activeState "we1").length
        + countOk [(sampleSetData, Except.ok sampleSet),
                   (sampleSetData, Except.error JsError.nonError)] :=
  (logSet_grows_list_per_successful_insert activeState sampleWorkout rfl "we1"
      (by decide)
      [(sampleSetData, Except.ok sampleSet),
       (sampleSetData, Except.error JsError.nonError)]
      sampleSetData JsError.nonError sampleSet emptyState rfl
      (Except.ok sampleSet)).1

/-- All sets currently held across the exercise list, a missing list reading
as empty. -/
def allHeldSets (st : UseWorkoutState) : List WorkoutSet :=
  (st.exercises.map fun ex => ex.sets.getD []).flatten

/-- Total-set count as the claim words it: the count of sets with is_warmup
false across all exercises. -/
def specTotalSets (st : UseWorkoutState) : ℕ :=
  (allHeldSets st).countP fun s => !s.is_warmup

/-- Total volume as the claim words it: the sum of weight times reps over the
non-warmup sets whose weight_kg and reps are both present. -/
def specTotalVolume (st : UseWorkoutState) : ℚ :=
  (((allHeldSets st).filter fun s =>
      !s.is_warmup && s.weight_kg.isSome && s.reps.isSome).map fun s =>
    s.weight_kg.getD 0 * (s.reps.getD 0 : ℚ)).sum

theorem foldl_add_eq_sum_map {α : Type} {M : Type} [AddMonoid M]
    (l : List α) (f : α → M) (init : M) :
    l.foldl (fun acc a => acc + f a) init = init + (l.map f).sum := by
  induction l generalizing init with
  | nil => simp
  | cons a rest ih => simp [ih, add_assoc]

theorem sum_map_ite_eq_sum_filter {α : Type} (l : List α) (p : α → Bool)
    (v : α → ℚ) :
    (l.map fun a => if p a then v a else 0).sum
      = ((l.filter p).map v).sum := by
  induction l with
  | nil => rfl
  | cons a rest ih =>
      by_cases hp : p a <;> simp [List.filter_cons, hp, ih]

theorem count_over_exercises (l : List WorkoutExercise) (p : WorkoutSet → Bool) :
    (l.map fun ex => (ex.sets.getD []).countP p).sum
      = ((l.map fun ex => ex.sets.getD []).flatten).countP p := by
  induction l with
  | nil => rfl
  | cons ex rest ih => simp [List.countP_append, ih]

theorem sum_over_exercises (l : List WorkoutExercise) (v : WorkoutSet → ℚ) :
    (l.map fun ex => ((ex.sets.getD []).map v).sum).sum
      = ((l.map fun ex => ex.sets.getD []).flatten.map v).sum := by
  induction l with
  | nil => rfl
  | cons ex rest ih => simp [ih]

theorem volume_term_truthy_eq_present (s : WorkoutSet) :
    (if !s.is_warmup && truthyQ s.weight_kg && truthyN s.reps
     then s.weight_kg.getD 0 * (s.reps.getD 0 : ℚ) else 0)
      = (if !s.is_warmup && s.weight_kg.isSome && s.reps.isSome
         then s.weight_kg.getD 0 * (s.reps.getD 0 : ℚ) else 0) := by
  rcases hw : s.weight_kg with _ | q <;> rcases hr : s.reps with _ | n <;>
    simp [truthyQ, truthyN]
  by_cases hq : q = 0
  · by_cases hn : n = 0 <;> simp [hq, hn]
  · by_cases hn : n = 0 <;> simp [hq, hn]

/-- C2: getWorkoutStats reports as totalSets the count of non-warmup sets
across all exercises and as totalVolume the rounded sum of weight times reps
over the non-warmup sets whose weight and reps are both present (a present
zero weight or zero rep count contributes zero either way), and the result is
a function of the exercise list alone. -/
theorem getWorkoutStats_totals (st : UseWorkoutState) :
    (getWorkoutStats st).totalSets = specTotalSets st
    ∧ (getWorkoutStats st).totalVolume = mathRound (specTotalVolume st)
    ∧ ∀ st2 : UseWorkoutState, st2.exercises = st.exercises →
        getWorkoutStats st2 = getWorkoutStats st := by
  refine ⟨?_, ?_, ?_⟩
  · show st.exercises.foldl _ 0 = _
    rw [foldl_add_eq_sum_map, Nat.zero_add]
    have hper1 : ∀ ex : WorkoutExercise,
        (ex.sets.map fun ss => (ss.filter fun s => !s.is_warmup).length).getD 0
          = (ex.sets.getD []).countP fun s => !s.is_warmup := by
      intro ex
      rcases ex.sets with _ | ss <;> simp [List.countP_eq_length_filter]
    rw [List.map_congr_left fun ex _ => hper1 ex, count_over_exercises]
    rfl
  · show mathRound (st.exercises.foldl _ 0) = _
    congr 1
    rw [foldl_add_eq_sum_map, zero_add]
    have hper : ∀ ex : WorkoutExercise,
        (ex.sets.map fun ss => ss.foldl
          (fun setAcc s =>
            setAcc + (if !s.is_warmup && truthyQ s.weight_kg && truthyN s.reps
                      then s.weight_kg.getD 0 * (s.reps.getD 0 : ℚ)
                      else 0)) 0).getD 0
          = ((ex.sets.getD []).map fun s =>
              if !s.is_warmup && s.weight_kg.isSome && s.reps.isSome
              then s.weight_kg.getD 0 * (s.reps.getD 0 : ℚ) else 0).sum := by
      intro ex
      rcases ex.sets with _ | ss
      · simp
      · show ss.foldl _ 0 = _
        rw [foldl_add_eq_sum_map, zero_add]
        congr 1
        exact List.map_congr_left fun s _ => volume_term_truthy_eq_present s
    rw [List.map_congr_left fun ex _ => hper ex, sum_over_exercises]
    unfold specTotalVolume allHeldSets
    rw [← sum_map_ite_eq_sum_filter]
  · intro st2 hex
    unfold getWorkoutStats
    rw [hex]

/-- Witness evaluating the C2 theorem on the fixture state holding one logged
set of 100 kg by 5 reps. -/
theorem getWorkoutStats_totals_witness :
    (getWorkoutStats { activeState with
        exercises := [{ sampleWE with sets := some [sampleSet] }] }).totalVolume
      = mathRound (specTotalVolume { activeState with
          exercises := [{ sampleWE with sets := some [sampleSet] }] }) :=
  (getWorkoutStats_totals { activeState with
      exercises := [{ sampleWE with sets := some [sampleSet] }] }).2.1

/-- Fixture: second catalog exercise. -/
def exB : Exercise :=
  { id := "eB", name := "Overhead Press", description := none,
    primary_muscle_group := .front_delt, secondary_muscle_groups := [.triceps],
    equipment := .barbell, is_compound := true, created_by := none,
    created_at := 0 }

/-- Fixture: third catalog exercise. -/
def exC : Exercise :=
  { id := "eC", name := "Triceps Pushdown", description := none,
    primary_muscle_group := .triceps, secondary_muscle_groups := [],
    equipment := .cable, is_compound := false, created_by := none,
    created_at := 0 }

/-- Fixture: first template slot, three target sets of exercise eA. -/
def te1 : TemplateExercise :=
  { id := "te1", template_id := "t1", exercise_id := "eA", order_index := 0,
    target_sets := 3, target_reps := some 8, target_rpe := none,
    rest_seconds := 120, notes := none, created_at := 0, exercise := exA }

/-- Fixture: second template slot, three target sets of exercise eB. -/
def te2 : TemplateExercise :=
  { id := "te2", template_id := "t1", exercise_id := "eB", order_index := 1,
    target_sets := 3, target_reps := some 8, target_rpe := none,
    rest_seconds := 120, notes := none, created_at := 0, exercise := exB }

/-- Fixture: third template slot, three target sets of exercise eC. -/
def te3 : TemplateExercise :=
  { id := "te3", template_id := "t1", exercise_id := "eC", order_index := 2,
    target_sets := 3, target_reps := some 12, target_rpe := none,
    rest_seconds := 90, notes := none, created_at := 0, exercise := exC }

/-- Fixture: a template of three distinct exercises, three target sets
each. -/
def template3 : WorkoutTemplateWithExercises :=
  { id := "t1", name := "Push Day", description := none, created_by := none,
    estimated_duration_minutes := none, created_at := 0, updated_at := 0,
    template_exercises := [te1, te2, te3] }

/-- Fixture: the workout row the backend returns for starting template3. -/
def startedW : Workout :=
  { id := "w1", user_id := "u1", template_id := some "t1", name := "Push Day",
    started_at := 0, completed_at := none, status := .in_progress,
    notes := none, created_at := 0, updated_at := 0 }

/-- Fixture: first inserted workout_exercises row with its joined
exercise. -/
def weA : WorkoutExercise :=
  { id := "we1", workout_id := "w1", exercise_id := "eA", order_index := 0,
    template_exercise_id := some "te1", is_substitution := false,
    notes := none, created_at := 0, exercise := some exA }

/-- Fixture: second inserted workout_exercises row. -/
def weB : WorkoutExercise :=
  { id := "we2", workout_id := "w1", exercise_id := "eB", order_index := 1,
    template_exercise_id := some "te2", is_substitution := false,
    notes := none, created_at := 0, exercise := some exB }

/-- Fixture: third inserted workout_exercises row. -/
def weC : WorkoutExercise :=
  { id := "we3", workout_id := "w1", exercise_id := "eC", order_index := 2,
    template_exercise_id := some "te3", is_substitution := false,
    notes := none, created_at := 0, exercise := some exC }

/-- State after starting template3 from the idle state, with the backend
returning the inserted rows. -/
def startedState : UseWorkoutState :=
  (startWorkout (some { id := "u1" }) emptyState template3
    (.ok startedW) (.ok [weA, weB, weC])).2.1

/-- State after additionally logging one 100 kg by 5 reps set on the first
exercise slot. -/
def loggedState : UseWorkoutState :=
  (logSet startedState "we1" sampleSetData (.ok sampleSet)).2.1

/-- C9: starting a template of three distinct exercises with three target
sets each yields a session of exactly three exercise slots, one per template
exercise in template order, each carrying targetSets three and an empty set
list; logging one 100 kg by 5 reps set on the first slot then yields stats
with one total set and a total volume of five hundred. -/
theorem startWorkout_template3_example :
    startedState.exercises.length = 3
    ∧ startedState.exercises.map (fun ex => ex.exercise_id)
        = ["eA", "eB", "eC"]
    ∧ startedState.exercises.map (fun ex => ex.targetSets)
        = [some 3, some 3, some 3]
    ∧ startedState.exercises.map (fun ex => ex.sets)
        = [some [], some [], some []]
    ∧ getWorkoutStats loggedState
        = { totalSets := 1, totalVolume := 500, exerciseCount := 3,
            completedExercises := 1 } := by
  refine ⟨rfl, rfl, ?_, ?_, ?_⟩
  · rfl
  · rfl
  · unfold getWorkoutStats
    simp +decide [loggedState, startedState, logSet, startWorkout, emptyState,
      template3, te1, te2, te3, weA, weB, weC, exA, exB, exC, sampleSetData,
      sampleSet, startedW, truthyQ, truthyN]
    norm_num [mathRound, Rat.floor]

theorem length_mapWithIndex (f : ℕ → SetRowData → SetRowData) :
    ∀ (l : List SetRowData) (n : ℕ), (mapWithIndex f n l).length = l.length := by
  intro l
  induction l with
  | nil => intro n; rfl
  | cons a rest ih => intro n; simpa [mapWithIndex] using ih (n + 1)

theorem mapWithIndex_setNumber :
    ∀ (l : List SetRowData) (n : ℕ),
      (mapWithIndex (fun i s => { s with setNumber := i + 1 }) n l).map
          (fun r => r.setNumber)
        = List.range' (n + 1) l.length := by
  intro l
  induction l with
  | nil => intro n; rfl
  | cons a rest ih =>
      intro n
      simp only [mapWithIndex, List.map_cons, List.length_cons,
        List.range'_succ, ih (n + 1)]

theorem localSets_deleteSet_ok (st : UseWorkoutState) (sid weId : String) :
    localSets (deleteSet st sid weId (.ok ())).2.1 weId
      = (localSets st weId).filter fun s => s.id ≠ sid := by
  unfold localSets
  simp only [deleteSet]
  rw [find?_map_id_preserving _ _ _
        (fun ex => by by_cases hcase : ex.id = weId <;> simp [hcase])]
  cases hfind : st.exercises.find? fun ex => decide (ex.id = weId) with
  | none => rfl
  | some ex0 =>
      have hid : ex0.id = weId := by simpa using List.find?_some hfind
      simp only [Option.map]
      rw [if_pos hid]
      cases ex0.sets <;> rfl

/-- Fixture: the slot sets numbered one and two. -/
def setOne : WorkoutSet := { sampleSet with id := "s1", set_number := 1 }

/-- Fixture: the second of the two numbered sets. -/
def setTwo : WorkoutSet := { sampleSet with id := "s2", set_number := 2 }

/-- Fixture: the active-state slot holding setOne and setTwo. -/
def twoSetSlot : WorkoutExercise := { sampleWE with sets := some [setOne, setTwo] }

/-- Fixture: an active state whose single slot holds two numbered sets. -/
def twoSetState : UseWorkoutState := { activeState with exercises := [twoSetSlot] }

/-- Counterexample to C3 as stated: on a slot holding sets numbered one and
two, a successful deleteSet of set one leaves the session-level list for the
slot with its remaining set still numbered two, which is not the dense
one-to-N numbering the claim asserts for that list. -/
theorem deleteSet_does_not_renumber_session_list :
    (localSets (deleteSet twoSetState "s1" "we1" (.ok ())).2.1 "we1").map
        (fun s => s.set_number) = [2]
    ∧ [2] ≠ List.range' 1 1 := by
  constructor <;> decide

/-- C3 as amended: the renumbering to a dense one-to-N sequence happens in
the set-input component's local row list (handleDeleteSet), whose surviving
rows get setNumber one to N by position; the session-level list maintained by
deleteSet only removes the matching set and keeps the set_number values of
the remaining sets unchanged, and slots other than the targeted one keep
their rows. -/
theorem deleteSet_renumbers_component_rows_only
    (rows : List SetRowData) (index : ℕ)
    (st : UseWorkoutState) (sid weId : String) :
    (handleDeleteSetLocal rows index).map (fun r => r.setNumber)
        = List.range' 1 (handleDeleteSetLocal rows index).length
    ∧ localSets (deleteSet st sid weId (.ok ())).2.1 weId
        = (localSets st weId).filter (fun s => s.id ≠ sid)
    ∧ (∀ i : ℕ, ∀ ex : WorkoutExercise, st.exercises[i]? = some ex →
        ex.id ≠ weId →
        (deleteSet st sid weId (.ok ())).2.1.exercises[i]? = some ex) := by
  refine ⟨?_, localSets_deleteSet_ok st sid weId, ?_⟩
  · unfold handleDeleteSetLocal
    rw [mapWithIndex_setNumber, length_mapWithIndex]
  · intro i ex hex hid
    simp only [deleteSet, List.getElem?_map, hex]
    simp [hid]

/-- Witness for the amended C3 theorem on concrete component rows and the
concrete two-set state. -/
theorem deleteSet_renumbers_component_rows_only_witness :
    (handleDeleteSetLocal
        [{ setNumber := 1, weight := "100", reps := "5", isWarmup := false,
           isCompleted := true, setId := some "s1" },
         { setNumber := 2, weight := "102.5", reps := "5", isWarmup := false,
           isCompleted := false }] 0).map (fun r => r.setNumber)
      = List.range' 1 (handleDeleteSetLocal
        [{ setNumber := 1, weight := "100", reps := "5", isWarmup := false,
           isCompleted := true, setId := some "s1" },
         { setNumber := 2, weight := "102.5", reps := "5", isWarmup := false,
           isCompleted := false }] 0).length :=
  (deleteSet_renumbers_component_rows_only
      [{ setNumber := 1, weight := "100", reps := "5", isWarmup := false,
         isCompleted := true, setId := some "s1" },
       { setNumber := 2, weight := "102.5", reps := "5", isWarmup := false,
         isCompleted := false }] 0 activeState "s1" "we1").1

theorem timerStep_nonneg (s : TimerState) (e : TimerEvent)
    (h : 0 ≤ s.remainingSeconds) : 0 ≤ (timerStep s e).1.remainingSeconds := by
  cases e with
  | tick =>
      simp only [timerStep, timerTick]
      split_ifs <;> simp <;> omega
  | pauseResume => simpa [timerStep, togglePause] using h
  | adjust d =>
      simp only [timerStep, adjustTime]
      exact le_max_left 0 _

theorem runTimer_nonneg (d : ℤ) (hd : 0 ≤ d) (events : List TimerEvent) :
    0 ≤ (runTimer d events).remainingSeconds := by
  suffices h : ∀ s : TimerState, 0 ≤ s.remainingSeconds →
      0 ≤ (events.foldl (fun s e => (timerStep s e).1) s).remainingSeconds by
    exact h (initTimer d) hd
  induction events with
  | nil => intro s hs; exact hs
  | cons e rest ih =>
      intro s hs
      exact ih _ (timerStep_nonneg s e hs)

/-- Counterexample to C8 as stated: opening the timer at ten seconds and
pressing minus fifteen leaves zero seconds with the timer visible and
unpaused, and the next tick keeps the count at zero instead of decrementing
it by exactly one as the claim asserts of every unpaused tick. -/
theorem restTimer_tick_at_zero_does_not_decrement :
    runTimer 10 [TimerEvent.adjust (-15)]
      = { remainingSeconds := 0, isPaused := false, visible := true }
    ∧ (timerTick (runTimer 10 [TimerEvent.adjust (-15)])).1.remainingSeconds = 0
    ∧ (timerTick (runTimer 10 [TimerEvent.adjust (-15)])).1.remainingSeconds
        ≠ (runTimer 10 [TimerEvent.adjust (-15)]).remainingSeconds - 1 := by
  refine ⟨?_, ?_, ?_⟩ <;> decide

/-- C8 as amended: over every event interleaving from a nonnegative starting
duration the remaining count never becomes negative and every adjustment
clamps at zero; a tick while paused changes nothing; an unpaused visible tick
with a positive remaining count decrements it by exactly one; the tick taken
at one second signals completion, closes the timer and reaches zero; and a
tick taken at zero (reachable only through a downward adjustment) leaves the
count at zero. -/
theorem restTimer_countdown (d : ℤ) (hd : 0 ≤ d)
    (events : List TimerEvent) (s : TimerState) (delta : ℤ) :
    0 ≤ (runTimer d events).remainingSeconds
    ∧ 0 ≤ (adjustTime s delta).remainingSeconds
    ∧ (s.isPaused = true → timerTick s = (s, false))
    ∧ (s.visible = true → s.isPaused = false → 0 < s.remainingSeconds →
        (timerTick s).1.remainingSeconds = s.remainingSeconds - 1)
    ∧ (s.visible = true → s.isPaused = false → s.remainingSeconds = 1 →
        (timerTick s).2 = true ∧ (timerTick s).1.visible = false
          ∧ (timerTick s).1.remainingSeconds = 0)
    ∧ (s.visible = true → s.isPaused = false → s.remainingSeconds = 0 →
        (timerTick s).1.remainingSeconds = 0) := by
  refine ⟨runTimer_nonneg d hd events, le_max_left 0 _, ?_, ?_, ?_, ?_⟩
  · intro hp
    simp [timerTick, hp]
  · intro hv hp hpos
    have hcond : (!s.visible || s.isPaused) = false := by simp [hv, hp]
    simp [timerTick, hcond]
    split_ifs with h1
    · show (0 : ℤ) = s.remainingSeconds - 1
      omega
    · rfl
  · intro hv hp hone
    simp [timerTick, hv, hp, hone]
  · intro hv hp hzero
    simp [timerTick, hv, hp, hzero]

/-- Witness for the amended C8 theorem: a three-second timer stays
nonnegative after one tick and that tick decrements it by exactly one. -/
theorem restTimer_countdown_witness :
    0 ≤ (runTimer 3 [TimerEvent.tick]).remainingSeconds
    ∧ (timerTick (initTimer 3)).1.remainingSeconds
        = (initTimer 3).remainingSeconds - 1 :=
  ⟨(restTimer_countdown 3 (by decide) [TimerEvent.tick] (initTimer 3) 15).1,
   (restTimer_countdown 3 (by decide) [TimerEvent.tick] (initTimer 3)
      15).2.2.2.1 rfl rfl (by decide)⟩

theorem find?_eq_of_unique {α : Type} (l : List α) (p : α → Bool) (a : α)
    (ha : a ∈ l) (hpa : p a = true)
    (huniq : ∀ b ∈ l, p b = true → b = a) :
    l.find? p = some a := by
  induction l with
  | nil => cases ha
  | cons c rest ih =>
      by_cases hpc : p c = true
      · have hca : c = a := huniq c (List.mem_cons_self c rest) hpc
        subst hca
        simp [List.find?_cons, hpc]
      · have hca : a ∈ rest := by
          rcases List.mem_cons.mp ha with h | h
          · exact absurd (h ▸ hpa) hpc
          · exact h
        have hpc' : p c = false := Bool.eq_false_iff.mpr hpc
        rw [List.find?_cons, hpc']
        exact ih hca fun b hb hpb => huniq b (List.mem_cons_of_mem c hb) hpb

theorem find?_filter_and {α : Type} (l : List α) (p q : α → Bool) :
    (l.filter p).find? q = l.find? fun a => p a && q a := by
  induction l with
  | nil => rfl
  | cons a rest ih =>
      by_cases hp : p a = true
      · by_cases hq : q a = true
        · simp [List.filter_cons, hp, List.find?_cons, hq]
        · have hq' : q a = false := Bool.eq_false_iff.mpr hq
          simp [List.filter_cons, hp, List.find?_cons, hq', ih]
      · have hp' : p a = false := Bool.eq_false_iff.mpr hp
        simp [List.filter_cons, hp', List.find?_cons, ih]

theorem orderedInsert_eq_cons_of_forall {α : Type} (r : α → α → Prop)
    [DecidableRel r] (a : α) (L : List α) (h : ∀ x ∈ L, r a x) :
    List.orderedInsert r a L = a :: L := by
  cases L with
  | nil => rfl
  | cons c rest => simp [List.orderedInsert, h c (List.mem_cons_self c rest)]

theorem filter_orderedInsert {α : Type} (r : α → α → Prop)
    [DecidableRel r] [IsTotal α r] [IsTrans α r]
    (p : α → Bool) (a : α) (L : List α) (hL : List.Sorted r L) :
    (List.orderedInsert r a L).filter p
      = if p a then List.orderedInsert r a (L.filter p) else L.filter p := by
  induction L with
  | nil =>
      by_cases hpa : p a = true <;>
        simp [List.orderedInsert, List.filter_cons, hpa]
  | cons b L ih =>
      have hbL : ∀ x ∈ L, r b x := (List.sorted_cons.mp hL).1
      have hLs : List.Sorted r L := (List.sorted_cons.mp hL).2
      by_cases hab : r a b
      · have hall : ∀ x ∈ List.filter p (b :: L), r a x := by
          intro x hx
          rcases List.mem_cons.mp (List.mem_of_mem_filter hx) with h | h
          · exact h ▸ hab
          · exact Trans.trans hab (hbL x h)
        rw [List.orderedInsert, if_pos hab, List.filter_cons,
            orderedInsert_eq_cons_of_forall r a _ hall]
      · by_cases hpa : p a = true <;> by_cases hpb : p b = true <;>
          simp [List.orderedInsert, hab, List.filter_cons, hpa, hpb, ih hLs]

theorem filter_insertionSort {α : Type} (r : α → α → Prop)
    [DecidableRel r] [IsTotal α r] [IsTrans α r] (p : α → Bool) (l : List α) :
    (List.insertionSort r l).filter p = List.insertionSort r (l.filter p) := by
  induction l with
  | nil => rfl
  | cons a rest ih =>
      rw [List.insertionSort, List.filter_cons]
      rw [filter_orderedInsert r p a _ (List.sorted_insertionSort r rest), ih]
      by_cases hpa : p a = true
      · rw [if_pos hpa, if_pos hpa, List.insertionSort]
      · rw [if_neg hpa, if_neg hpa]

/-- Candidacy as the claim words it: a completed workout of the user
containing the exercise through some workout_exercises row. -/
def isPreviousCandidate (db : Database) (u : User) (exerciseId : String)
    (w : Workout) : Prop :=
  w ∈ db.workouts ∧ w.user_id = u.id ∧ w.status = .completed ∧
    ∃ we ∈ db.workout_exercises,
      we.workout_id = w.id ∧ we.exercise_id = exerciseId

instance (db : Database) (u : User) (e : String) (w : Workout) :
    Decidable (isPreviousCandidate db u e w) := by
  unfold isPreviousCandidate
  infer_instance

/-- Strictly-later comparison of nullable completion timestamps; false when
either is null, where recency is not defined. -/
def strictlyLater : Option ℕ → Option ℕ → Prop
  | some a, some b => b < a
  | _, _ => False

instance : DecidableRel strictlyLater
  | some a, some b => inferInstanceAs (Decidable (b < a))
  | none, _ => inferInstanceAs (Decidable False)
  | some _, none => inferInstanceAs (Decidable False)

theorem strictlyLater_asymm {x y : Option ℕ}
    (hxy : strictlyLater x y) (hyx : strictlyLater y x) : False := by
  match x, y with
  | some a, some b => exact absurd hxy (by simpa [strictlyLater] using Nat.le_of_lt hyx)
  | none, _ => exact hxy.elim
  | some _, none => exact hyx.elim

/-- Most recently completed candidate workout, as the claim words it: the
candidate completed strictly later than every other candidate. -/
def mostRecentCandidate (db : Database) (u : User) (exerciseId : String) :
    Option Workout :=
  db.workouts.find? fun w =>
    decide (isPreviousCandidate db u exerciseId w ∧
      ∀ w2 ∈ db.workouts, isPreviousCandidate db u exerciseId w2 → w2 ≠ w →
        strictlyLater w.completed_at w2.completed_at)

/-- Specification of getPreviousSets written from the amended claim: the
non-warmup sets with truthy weight and reps of the most recently completed
workout containing the exercise, through its matching workout_exercises row,
ordered ascending by set_number. -/
def previousSetsSpec (db : Database) (u : User) (exerciseId : String) :
    List PreviousSetData :=
  match mostRecentCandidate db u exerciseId with
  | none => []
  | some w =>
    match db.workout_exercises.find? fun we =>
        decide (we.workout_id = w.id ∧ we.exercise_id = exerciseId) with
    | none => []
    | some we =>
      (List.insertionSort setNumberLe (db.workout_sets.filter fun s =>
          decide (s.workout_exercise_id = we.id) && decide (s.is_warmup = false)
            && (truthyQ s.weight_kg && truthyN s.reps))).map fun s =>
        { exercise_id := exerciseId, set_number := s.set_number,
          weight_kg := s.weight_kg.getD 0, reps := s.reps.getD 0 }

theorem mem_candidateWorkouts (db : Database) (u : User) (e : String)
    (w : Workout) :
    w ∈ candidateWorkouts db u e ↔ isPreviousCandidate db u e w := by
  unfold candidateWorkouts isPreviousCandidate
  simp only [List.mem_filter, Bool.and_eq_true, decide_eq_true_eq,
    List.any_eq_true]
  tauto

theorem mostRecentCandidate_eq_none (db : Database) (u : User) (e : String)
    (hempty : candidateWorkouts db u e = []) :
    mostRecentCandidate db u e = none := by
  unfold mostRecentCandidate
  rw [List.find?_eq_none]
  intro w _
  simp only [decide_eq_true_eq, not_and]
  intro hcand
  have : w ∈ candidateWorkouts db u e := (mem_candidateWorkouts db u e w).mpr hcand
  rw [hempty] at this
  cases this

theorem sorted_head_is_mostRecent (db : Database) (u : User) (e : String)
    (hsome : ∀ w ∈ candidateWorkouts db u e, w.completed_at.isSome = true)
    (hdist : (candidateWorkouts db u e).Pairwise
        fun a b => a.completed_at ≠ b.completed_at)
    (w : Workout)
    (hw : (List.insertionSort completedDescBefore
        (candidateWorkouts db u e)).head? = some w) :
    mostRecentCandidate db u e = some w := by
  have hperm := List.perm_insertionSort completedDescBefore
    (candidateWorkouts db u e)
  have hsorted := List.sorted_insertionSort completedDescBefore
    (candidateWorkouts db u e)
  obtain ⟨t, hS⟩ : ∃ t, List.insertionSort completedDescBefore
      (candidateWorkouts db u e) = w :: t := by
    cases hS : List.insertionSort completedDescBefore
        (candidateWorkouts db u e) with
    | nil => rw [hS] at hw; cases hw
    | cons h t =>
        rw [hS] at hw
        exact ⟨t, by simpa using hw⟩
  rw [hS] at hperm hsorted
  have hwt : ∀ x ∈ t, completedDescBefore w x := (List.sorted_cons.mp hsorted).1
  have hwC : w ∈ candidateWorkouts db u e :=
    hperm.mem_iff.mp (List.mem_cons_self w t)
  have hdistAll : ∀ a ∈ candidateWorkouts db u e,
      ∀ b ∈ candidateWorkouts db u e, a ≠ b →
        a.completed_at ≠ b.completed_at :=
    fun a ha b hb hab =>
      List.Pairwise.forall (fun _ _ h => h.symm) hdist ha hb hab
  have hmax : ∀ w2 ∈ candidateWorkouts db u e, w2 ≠ w →
      strictlyLater w.completed_at w2.completed_at := by
    intro w2 hw2 hne
    have hw2S : w2 ∈ w :: t := hperm.mem_iff.mpr hw2
    have hw2t : w2 ∈ t := by
      rcases List.mem_cons.mp hw2S with h | h
      · exact absurd h hne
      · exact h
    have hdesc : optDescBefore w.completed_at w2.completed_at := hwt w2 hw2t
    obtain ⟨x, hx⟩ := Option.isSome_iff_exists.mp (hsome w hwC)
    obtain ⟨y, hy⟩ := Option.isSome_iff_exists.mp (hsome w2 hw2)
    rw [hx, hy] at hdesc ⊢
    have hne' : (some x : Option ℕ) ≠ some y := by
      rw [← hx, ← hy]
      exact hdistAll w hwC w2 hw2 (fun hcontr => hne hcontr.symm)
    have : y < x := lt_of_le_of_ne hdesc fun hyx => hne' (by rw [hyx])
    simpa [strictlyLater] using this
  have hwW : w ∈ db.workouts := (List.mem_filter.mp hwC).1
  apply find?_eq_of_unique db.workouts _ w hwW
  · rw [decide_eq_true_eq]
    refine ⟨(mem_candidateWorkouts db u e w).mp hwC, ?_⟩
    intro w2 _ hcand2 hne
    exact hmax w2 ((mem_candidateWorkouts db u e w2).mpr hcand2) hne
  · intro b _ hpb
    rw [decide_eq_true_eq] at hpb
    obtain ⟨hbcand, hbmax⟩ := hpb
    by_contra hne
    have hbC : b ∈ candidateWorkouts db u e :=
      (mem_candidateWorkouts db u e b).mpr hbcand
    have h1 : strictlyLater w.completed_at b.completed_at := hmax b hbC hne
    have h2 : strictlyLater b.completed_at w.completed_at :=
      hbmax w hwW ((mem_candidateWorkouts db u e w).mp hwC)
        fun hcontr => hne hcontr.symm
    exact strictlyLater_asymm h1 h2

theorem getPreviousSets_eq_previousSetsSpec (db : Database) (u : User)
    (e : String)
    (hsome : ∀ w ∈ candidateWorkouts db u e, w.completed_at.isSome = true)
    (hdist : (candidateWorkouts db u e).Pairwise
        fun a b => a.completed_at ≠ b.completed_at) :
    getPreviousSets db (some u) e = previousSetsSpec db u e := by
  cases hhead : (List.insertionSort completedDescBefore
      (candidateWorkouts db u e)).head? with
  | none =>
      have hC : candidateWorkouts db u e = [] := by
        have hlen := (List.perm_insertionSort completedDescBefore
          (candidateWorkouts db u e)).length_eq
        rw [List.head?_eq_none_iff.mp hhead] at hlen
        exact List.length_eq_zero.mp hlen.symm
      simp only [getPreviousSets, hhead, previousSetsSpec,
        mostRecentCandidate_eq_none db u e hC]
  | some w =>
      simp only [getPreviousSets, hhead, previousSetsSpec,
        sorted_head_is_mostRecent db u e hsome hdist w hhead]
      have hfind : (db.workout_exercises.filter fun we =>
          decide (we.workout_id = w.id) && decide (we.exercise_id = e)).find?
            (fun we => decide (we.exercise_id = e))
          = db.workout_exercises.find? fun we =>
              decide (we.workout_id = w.id ∧ we.exercise_id = e) := by
        rw [find?_filter_and]
        congr 1
        funext x
        by_cases h1 : x.workout_id = w.id <;> by_cases h2 : x.exercise_id = e <;>
          simp [h1, h2]
      rw [hfind]
      cases hfe : db.workout_exercises.find? (fun we =>
          decide (we.workout_id = w.id ∧ we.exercise_id = e)) with
      | none => rfl
      | some we =>
          dsimp only
          rw [filter_insertionSort setNumberLe, List.filter_filter]
          have hpred : (fun s : WorkoutSet =>
              (truthyQ s.weight_kg && truthyN s.reps) &&
                (decide (s.workout_exercise_id = we.id) &&
                  decide (s.is_warmup = false)))
              = fun s : WorkoutSet =>
                decide (s.workout_exercise_id = we.id) &&
                  decide (s.is_warmup = false) &&
                  (truthyQ s.weight_kg && truthyN s.reps) := by
            funext s
            exact Bool.and_comm _ _
          rw [hpred]

/-- C7 as amended: getPreviousSets with an authenticated user equals the
specification reading of the claim, restricted to sets with truthy weight and
reps: the non-warmup such sets of the most recently completed workout of the
user containing the exercise, ordered ascending by set_number (stated under
the hypotheses making most-recent well defined: every candidate has a
completion timestamp and no two candidates share one); an unauthenticated
user or an absence of candidate workouts yields the empty list; and the pure
function keeps no cache and touches no session state. -/
theorem getPreviousSets_refines_spec (db : Database) (u : User) (e : String)
    (hsome : ∀ w ∈ candidateWorkouts db u e, w.completed_at.isSome = true)
    (hdist : (candidateWorkouts db u e).Pairwise
        fun a b => a.completed_at ≠ b.completed_at) :
    getPreviousSets db (some u) e = previousSetsSpec db u e
    ∧ getPreviousSets db none e = []
    ∧ (candidateWorkouts db u e = [] → getPreviousSets db (some u) e = []) := by
  refine ⟨getPreviousSets_eq_previousSetsSpec db u e hsome hdist, rfl, ?_⟩
  intro hC
  simp [getPreviousSets, hC, List.insertionSort]

/-- Fixture: a completed workout of user u1, finished at time five. -/
def wDone : Workout :=
  { id := "w9", user_id := "u1", template_id := none, name := "Push Day",
    started_at := 0, completed_at := some 5, status := .completed,
    notes := none, created_at := 0, updated_at := 0 }

/-- Fixture: the exercise row of wDone for exercise eA. -/
def weDone : WorkoutExercise :=
  { id := "we9", workout_id := "w9", exercise_id := "eA", order_index := 0,
    template_exercise_id := none, is_substitution := false, notes := none,
    created_at := 0 }

/-- Fixture: a non-warmup set of weDone whose weight is null. -/
def nullWeightSet : WorkoutSet :=
  { id := "s9", workout_exercise_id := "we9", set_number := 1,
    weight_kg := none, reps := some 5, rpe := none, is_warmup := false,
    is_failure := false, is_dropset := false, target_reps := none,
    completed_at := 5, created_at := 5 }

/-- Fixture: store holding one completed workout whose only non-warmup set
has a null weight. -/
def dbNullWeight : Database :=
  { workouts := [wDone], workout_exercises := [weDone],
    workout_sets := [nullWeightSet] }

/-- Counterexample to C7 as stated: the most recently completed workout
containing exercise eA has exactly one non-warmup set, yet getPreviousSets
returns the empty list because that set has a null weight, so the function
does not return the non-warmup sets of that workout. -/
theorem getPreviousSets_drops_null_weight_sets :
    getPreviousSets dbNullWeight (some { id := "u1" }) "eA" = []
    ∧ (dbNullWeight.workout_sets.filter fun s =>
        decide (s.workout_exercise_id = "we9")
          && decide (s.is_warmup = false)).length = 1 := by
  constructor <;> decide

/-- Fixture: the same store with the weight filled in. -/
def goodSet : WorkoutSet := { nullWeightSet with id := "s10", weight_kg := some 60 }

/-- Fixture: store holding one completed workout with one filled set. -/
def dbGood : Database :=
  { workouts := [wDone], workout_exercises := [weDone],
    workout_sets := [goodSet] }

/-- Witness for the amended C7 theorem on the concrete one-workout store. -/
theorem getPreviousSets_refines_spec_witness :
    getPreviousSets dbGood (some { id := "u1" }) "eA"
      = previousSetsSpec dbGood { id := "u1" } "eA" :=
  (getPreviousSets_refines_spec dbGood { id := "u1" } "eA" (by decide)
      (by rw [show candidateWorkouts dbGood { id := "u1" } "eA" = [wDone]
                from rfl]
          simp)).1

end GymApp
